import Mathlib

/-
Shallow embedding of the reconstruction data store and measurement engine
(src/colmap_binary_parser.py, src/calibration_system.py, and the model
selector in src/colmap_processor.py).  Python float64 values are modelled
as real numbers; numpy vector operations are spelled out componentwise;
Python dicts (which preserve insertion order) are modelled as association
lists; functions that raise exceptions return Except values.
-/

set_option maxHeartbeats 1000000

/-- A 3D vector: models a numpy float64 array of length 3 (or an xyz tuple). -/
abbrev Vec3 : Type := ℝ × ℝ × ℝ

/-- Componentwise subtraction, models numpy vector subtraction. -/
def vsub (a b : Vec3) : Vec3 := (a.1 - b.1, a.2.1 - b.2.1, a.2.2 - b.2.2)

/-- Dot product, models np.dot on 3-vectors. -/
def vdot (a b : Vec3) : ℝ := a.1 * b.1 + a.2.1 * b.2.1 + a.2.2 * b.2.2

/-- Euclidean norm, models np.linalg.norm on a 3-vector. -/
noncomputable def vnorm (a : Vec3) : ℝ := Real.sqrt (vdot a a)

/-- Componentwise scaling, models numpy array * scalar. -/
def vscale (a : Vec3) (f : ℝ) : Vec3 := (a.1 * f, a.2.1 * f, a.2.2 * f)

/-- COLMAPBinaryParser.calculate_distance: Euclidean distance np.linalg.norm(p2 - p1). -/
noncomputable def calculate_distance (point1 point2 : Vec3) : ℝ := vnorm (vsub point2 point1)

/-- A 3D point record as returned by read_points3D. -/
structure Point3D where
  xyz : Vec3
  rgb : ℕ × ℕ × ℕ
  error : ℝ
  track : List (ℕ × ℕ)

/-- An image (camera pose) record as returned by read_images. -/
structure Image where
  qvec : ℝ × ℝ × ℝ × ℝ
  tvec : Vec3
  camera_id : ℕ
  name : String
  points2D : List (ℝ × ℝ × ℕ)

/-- A camera (intrinsics) record as returned by read_cameras. -/
structure Camera where
  model : ℤ
  width : ℕ
  height : ℕ
  params : List ℝ

/-- points3D dict: association list keyed by point id, in insertion (file) order. -/
abbrev PointMap : Type := List (ℕ × Point3D)

/-- images dict: association list keyed by image id, in insertion (file) order. -/
abbrev ImageMap : Type := List (ℕ × Image)

/-- cameras dict: association list keyed by camera id, in insertion (file) order. -/
abbrev CameraMap : Type := List (ℕ × Camera)

/-- COLMAPBinaryParser.apply_scale: multiplies every Point3D.xyz and every
Image.tvec by scale_factor; cameras are returned unchanged. -/
def apply_scale (points3D : PointMap) (cameras : CameraMap) (images : ImageMap)
    (scale_factor : ℝ) : PointMap × CameraMap × ImageMap :=
  (points3D.map fun e => (e.1, { e.2 with xyz := vscale e.2.xyz scale_factor }),
   cameras,
   images.map fun e => (e.1, { e.2 with tvec := vscale e.2.tvec scale_factor }))

/-- Errors raised by the measurement / calibration code (all ValueError in
the Python source; constructors follow the role of each raise site). -/
inductive MeasureError where
  | pointNotFound
  | identicalPoints
  | notLoaded
  | noPointFound
  | degenerateInput
  | unsupportedFormat (format : String)

/-- A measurement record as built by MeasurementSystem.add_measurement. -/
structure Measurement where
  id : ℕ
  point1_id : ℕ
  point2_id : ℕ
  point1_xyz : Vec3
  point2_xyz : Vec3
  distance_meters : ℝ
  distance_cm : ℝ
  distance_mm : ℝ
  label : String
  scaled : Bool

/-- The mutable state of a MeasurementSystem instance. -/
structure MeasurementSystem where
  cameras : CameraMap
  images : ImageMap
  points3D : PointMap
  scale_factor : ℝ
  measurements : List Measurement

/-- One step of the scan in find_nearest_point: keeps the current best
(point id, distance); min_dist = float(inf) before any hit is modelled by none.
The source condition is: dist < min_dist and dist < max_distance. -/
noncomputable def fnpStep (target : Vec3) (max_distance : ℝ)
    (acc : Option (ℕ × ℝ)) (e : ℕ × Point3D) : Option (ℕ × ℝ) :=
  let dist := vnorm (vsub e.2.xyz target)
  match acc with
  | none => if dist < max_distance then some (e.1, dist) else none
  | some b => if dist < b.2 ∧ dist < max_distance then some (e.1, dist) else some b

/-- MeasurementSystem.find_nearest_point: linear scan over points3D in
insertion order; raises if the reconstruction is empty/not loaded, or if no
point lies strictly within max_distance. -/
noncomputable def find_nearest_point (s : MeasurementSystem) (target_position : Vec3)
    (max_distance : ℝ) : Except MeasureError ℕ :=
  match s.points3D with
  | [] => .error .notLoaded
  | _ :: _ =>
    match s.points3D.foldl (fnpStep target_position max_distance) none with
    | none => .error .noPointFound
    | some b => .ok b.1

/-- The dict returned by MeasurementSystem.calibrate_scale. -/
structure CalibrationResult where
  scale_factor : ℝ
  known_distance : ℝ
  reconstruction_distance : ℝ

/-- MeasurementSystem.calibrate_scale: sets scale_factor = known / raw distance
and rescales the whole reconstruction via apply_scale. -/
noncomputable def calibrate_scale (s : MeasurementSystem) (point1_id point2_id : ℕ)
    (known_distance : ℝ) : Except MeasureError (MeasurementSystem × CalibrationResult) :=
  match s.points3D.lookup point1_id, s.points3D.lookup point2_id with
  | some q1, some q2 =>
    let reconstruction_distance := calculate_distance q1.xyz q2.xyz
    if reconstruction_distance = 0 then .error .identicalPoints
    else
      let sf := known_distance / reconstruction_distance
      let scaled := apply_scale s.points3D s.cameras s.images sf
      .ok ({ s with
             points3D := scaled.1, cameras := scaled.2.1, images := scaled.2.2,
             scale_factor := sf },
           { scale_factor := sf, known_distance := known_distance,
             reconstruction_distance := reconstruction_distance })
  | _, _ => .error .pointNotFound

/-- np.clip(x, lo, hi). -/
def npClip (x lo hi : ℝ) : ℝ := min (max x lo) hi

/-- MeasurementSystem.calculate_angle: angle at vertex point2 in degrees,
cosine clamped to [-1, 1] before arccos. -/
noncomputable def calculate_angle (s : MeasurementSystem) (point1_id point2_id point3_id : ℕ) :
    Except MeasureError ℝ :=
  match s.points3D.lookup point1_id, s.points3D.lookup point2_id, s.points3D.lookup point3_id with
  | some q1, some q2, some q3 =>
    let v1 := vsub q1.xyz q2.xyz
    let v2 := vsub q3.xyz q2.xyz
    let cos_angle := vdot v1 v2 / (vnorm v1 * vnorm v2)
    let clipped := npClip cos_angle (-1) 1
    .ok (Real.arccos clipped * (180 / Real.pi))
  | _, _, _ => .error .pointNotFound

/-- MeasurementSystem.calculate_thickness: raw distance times scale_factor. -/
noncomputable def calculate_thickness (s : MeasurementSystem) (point1_id point2_id : ℕ) :
    Except MeasureError ℝ :=
  match s.points3D.lookup point1_id, s.points3D.lookup point2_id with
  | some q1, some q2 => .ok (calculate_distance q1.xyz q2.xyz * s.scale_factor)
  | _, _ => .error .pointNotFound

/-- MeasurementSystem.add_measurement: appends a distance measurement record. -/
noncomputable def add_measurement (s : MeasurementSystem) (point1_id point2_id : ℕ)
    (label : String) : Except MeasureError (MeasurementSystem × Measurement) :=
  match s.points3D.lookup point1_id, s.points3D.lookup point2_id with
  | some q1, some q2 =>
    let distance := calculate_distance q1.xyz q2.xyz
    let m : Measurement :=
      { id := s.measurements.length
        point1_id := point1_id
        point2_id := point2_id
        point1_xyz := q1.xyz
        point2_xyz := q2.xyz
        distance_meters := distance
        distance_cm := distance * 100
        distance_mm := distance * 1000
        label := if label = "" then "Measurement " ++ toString (s.measurements.length + 1) else label
        scaled := if s.scale_factor = 1 then false else true }
    .ok ({ s with measurements := s.measurements ++ [m] }, m)
  | _, _ => .error .pointNotFound

/-- Python str(bool). -/
def pyBool (b : Bool) : String := if b then "True" else "False"

/-- The k decimal digit characters of v mod 10^k, most significant first
(zero padded to exactly k characters). -/
def padDigitChars : ℕ → ℕ → List Char
  | _, 0 => []
  | v, k + 1 => padDigitChars (v / 10) k ++ [Char.ofNat (48 + v % 10)]

/-- Fixed-point rendering of a real to k decimal places: the idealization of
the Python f-string format specifier .kf (round to nearest at the k-th
decimal, then print with exactly k fractional digits). -/
noncomputable def fmtFixed (x : ℝ) (k : ℕ) : String :=
  let n : ℤ := round (x * (10 : ℝ) ^ k)
  let a : ℕ := n.natAbs
  (if n < 0 then "-" else "") ++ toString (a / 10 ^ k) ++ "." ++
    String.mk (padDigitChars (a % 10 ^ k) k)

/-- The CSV header line of export_measurements. -/
def csvHeader : String := "id,label,point1_id,point2_id,distance_m,distance_cm,distance_mm,scaled"

/-- One CSV data row of export_measurements (the f-string of the source,
with .6f/.2f/.1f float formats). -/
noncomputable def csvRow (m : Measurement) : String :=
  toString m.id ++ "," ++ m.label ++ "," ++ toString m.point1_id ++ "," ++
    toString m.point2_id ++ "," ++ fmtFixed m.distance_meters 6 ++ "," ++
    fmtFixed m.distance_cm 2 ++ "," ++ fmtFixed m.distance_mm 1 ++ "," ++ pyBool m.scaled

/-- The list of CSV lines: header then one row per measurement in stored order. -/
noncomputable def csvLines (ms : List Measurement) : List String := csvHeader :: ms.map csvRow

/-- The newline separator used by the join in the CSV branch. -/
def newlineStr : String := String.mk ['\n']

/-- Structured view of the export_measurements output: the JSON branch is the
object with scale_factor and the measurements list; the CSV branch is the
newline-joined text. -/
inductive ExportOutput where
  | json (scale_factor : ℝ) (measurements : List Measurement)
  | csv (text : String)

/-- MeasurementSystem.export_measurements. -/
noncomputable def export_measurements (s : MeasurementSystem) (format : String) :
    Except MeasureError ExportOutput :=
  if format = "json" then .ok (.json s.scale_factor s.measurements)
  else if format = "csv" then .ok (.csv (String.intercalate newlineStr (csvLines s.measurements)))
  else .error (.unsupportedFormat format)

/-- The mutable state of a CalibrationSystem instance (src/calibration_system.py). -/
structure CalibrationSystem where
  scale_factor : ℝ
  calibration_method : String
  reference_distance : Option ℝ
  unit : String

/-- CalibrationSystem.calibrate_from_known_distance: raises if the raw
distance is below 1e-6, else sets scale_factor, method, reference and unit
and returns the scale factor. -/
noncomputable def calibrate_from_known_distance (c : CalibrationSystem)
    (point_a point_b : Vec3) (known_distance_meters : ℝ) :
    Except MeasureError (CalibrationSystem × ℝ) :=
  let reconstruction_distance := vnorm (vsub point_b point_a)
  if reconstruction_distance < 1e-6 then .error .degenerateInput
  else
    let sf := known_distance_meters / reconstruction_distance
    .ok ({ c with
           scale_factor := sf
           calibration_method := "known_distance"
           reference_distance := some known_distance_meters
           unit := "meters" }, sf)

/-- Running calibrate_from_known_distance as a state transition: on an
exception the prior state is returned untouched (Python raise before any
field assignment). -/
noncomputable def calibrateRun (c : CalibrationSystem) (point_a point_b : Vec3)
    (known_distance_meters : ℝ) : CalibrationSystem × Except MeasureError ℝ :=
  match calibrate_from_known_distance c point_a point_b known_distance_meters with
  | .error e => (c, .error e)
  | .ok r => (r.1, .ok r.2)

/-- Lexicographic comparison of character lists by code point: the order
Python uses to compare strings. -/
def charListLt : List Char → List Char → Bool
  | _, [] => false
  | [], _ :: _ => true
  | a :: s, b :: t => if a < b then true else if b < a then false else charListLt s t

/-- Python string comparison s < t (lexicographic by code point). -/
def strLt (s t : String) : Bool := charListLt s.data t.data

/-- Stable insertion of a directory entry into a name-sorted list
(lexicographic string order, as Python sorted() on same-parent Paths). -/
def insertByName (e : String × Option ℕ) : List (String × Option ℕ) → List (String × Option ℕ)
  | [] => [e]
  | a :: t => if strLt e.1 a.1 then e :: a :: t else a :: insertByName e t

/-- Python sorted() over the globbed candidate directories: lexicographic by
directory name. -/
def sortByName (l : List (String × Option ℕ)) : List (String × Option ℕ) :=
  l.foldr insertByName []

/-- The stats dict returned by COLMAPProcessor._find_best_model. -/
structure ModelStats where
  num_models : ℕ
  points_3d : ℕ
  model_id : String

/-- Loop body of _find_best_model: a candidate with no points3D.bin (none) is
skipped; otherwise its point count is file size // 48 and it replaces the
current best only when strictly greater. -/
def bestStep (acc : String × ℕ) (e : String × Option ℕ) : String × ℕ :=
  match e.2 with
  | none => acc
  | some size =>
    let point_count := size / 48
    if point_count > acc.2 then (e.1, point_count) else acc

/-- COLMAPProcessor._find_best_model: input is the list of numerically-named
candidate subdirectories, each with the byte size of its points3D.bin when
that file exists.  Returns (None, {}) when there are no candidates, modelled
as (none, none). -/
def find_best_model (dirs : List (String × Option ℕ)) : Option String × Option ModelStats :=
  match sortByName dirs with
  | [] => (none, none)
  | d0 :: rest =>
    let best := (d0 :: rest).foldl bestStep (d0.1, 0)
    (some best.1,
     some { num_models := (d0 :: rest).length, points_3d := best.2, model_id := best.1 })

/- ------------------------------------------------------------------ -/
/- Helper lemmas                                                       -/
/- ------------------------------------------------------------------ -/

theorem vscale_vscale (v : Vec3) (f1 f2 : ℝ) : vscale (vscale v f1) f2 = vscale v (f1 * f2) := by
  simp [vscale, mul_assoc]

theorem vdot_comm (a b : Vec3) : vdot a b = vdot b a := by
  simp [vdot]; ring

theorem vdot_self_nonneg (v : Vec3) : 0 ≤ vdot v v := by
  simp only [vdot]
  nlinarith [mul_self_nonneg v.1, mul_self_nonneg v.2.1, mul_self_nonneg v.2.2]

theorem vnorm_nonneg (v : Vec3) : 0 ≤ vnorm v := Real.sqrt_nonneg _

theorem vnorm_eq_zero_iff (v : Vec3) : vnorm v = 0 ↔ v = ((0 : ℝ), (0 : ℝ), (0 : ℝ)) := by
  rcases v with ⟨x, y, z⟩
  simp only [vnorm, vdot, Real.sqrt_eq_zero']
  constructor
  · intro h
    have hx : x * x = 0 := le_antisymm (by nlinarith [mul_self_nonneg y, mul_self_nonneg z]) (mul_self_nonneg x)
    have hy : y * y = 0 := le_antisymm (by nlinarith [mul_self_nonneg x, mul_self_nonneg z]) (mul_self_nonneg y)
    have hz : z * z = 0 := le_antisymm (by nlinarith [mul_self_nonneg x, mul_self_nonneg y]) (mul_self_nonneg z)
    simp only [Prod.mk.injEq]
    exact ⟨mul_self_eq_zero.mp hx, mul_self_eq_zero.mp hy, mul_self_eq_zero.mp hz⟩
  · rintro h
    rw [Prod.mk.injEq, Prod.mk.injEq] at h
    obtain ⟨h1, h2, h3⟩ := h
    subst h1; subst h2; subst h3
    norm_num

theorem vsub_eq_zero_iff (a b : Vec3) : vsub a b = ((0 : ℝ), (0 : ℝ), (0 : ℝ)) ↔ a = b := by
  rcases a with ⟨ax, ay, az⟩
  rcases b with ⟨bx, by', bz⟩
  simp [vsub, Prod.mk.injEq, sub_eq_zero]

theorem vnorm_pos_of_ne (a b : Vec3) (h : a ≠ b) : 0 < vnorm (vsub a b) := by
  rcases lt_or_eq_of_le (vnorm_nonneg (vsub a b)) with hlt | heq
  · exact hlt
  · exact absurd ((vsub_eq_zero_iff a b).mp ((vnorm_eq_zero_iff _).mp heq.symm)) h

/- ------------------------------------------------------------------ -/
/- C4: composability of apply_scale                                    -/
/- ------------------------------------------------------------------ -/

/-- C4: for every reconstruction and factors f1, f2, applying apply_scale
with f1 and then with f2 yields exactly the same reconstruction (and in
particular the same Point3D.xyz and Image.tvec coordinates) as a single
apply_scale with f1*f2; exact because coordinates are modelled as reals. -/
theorem apply_scale_comp (points3D : PointMap) (cameras : CameraMap) (images : ImageMap)
    (f1 f2 : ℝ) :
    apply_scale (apply_scale points3D cameras images f1).1
      (apply_scale points3D cameras images f1).2.1
      (apply_scale points3D cameras images f1).2.2 f2
      = apply_scale points3D cameras images (f1 * f2) := by
  simp only [apply_scale, List.map_map, Prod.mk.injEq, true_and, and_true, eq_self_iff_true]
  refine ⟨?_, ?_⟩
  · congr 1
    funext e
    simp [Function.comp, vscale_vscale]
  · congr 1
    funext e
    simp [Function.comp, vscale_vscale]

/- ------------------------------------------------------------------ -/
/- C9: apply_scale frame effect                                        -/
/- ------------------------------------------------------------------ -/

/-- C9: apply_scale multiplies every Point3D.xyz and every Image.tvec by the
factor and changes nothing else: cameras are returned unchanged, the key
sequences are unchanged, and every point keeps its rgb, error and track and
every image keeps its qvec, camera_id, name and points2D. -/
theorem apply_scale_frame (points3D : PointMap) (cameras : CameraMap) (images : ImageMap)
    (f : ℝ) :
    (apply_scale points3D cameras images f).2.1 = cameras ∧
    (apply_scale points3D cameras images f).1.map Prod.fst = points3D.map Prod.fst ∧
    (apply_scale points3D cameras images f).2.2.map Prod.fst = images.map Prod.fst ∧
    (∀ pid p, (pid, p) ∈ points3D →
      ∃ p', (pid, p') ∈ (apply_scale points3D cameras images f).1 ∧
        p'.xyz = vscale p.xyz f ∧ p'.rgb = p.rgb ∧ p'.error = p.error ∧ p'.track = p.track) ∧
    (∀ iid im, (iid, im) ∈ images →
      ∃ im', (iid, im') ∈ (apply_scale points3D cameras images f).2.2 ∧
        im'.tvec = vscale im.tvec f ∧ im'.qvec = im.qvec ∧ im'.camera_id = im.camera_id ∧
        im'.name = im.name ∧ im'.points2D = im.points2D) := by
  refine ⟨rfl, ?_, ?_, ?_, ?_⟩
  · simp [apply_scale, List.map_map, Function.comp]
  · simp [apply_scale, List.map_map, Function.comp]
  · intro pid p hmem
    exact ⟨{ p with xyz := vscale p.xyz f },
      List.mem_map_of_mem (fun e => (e.1, { e.2 with xyz := vscale e.2.xyz f })) hmem,
      rfl, rfl, rfl, rfl⟩
  · intro iid im hmem
    exact ⟨{ im with tvec := vscale im.tvec f },
      List.mem_map_of_mem (fun e => (e.1, { e.2 with tvec := vscale e.2.tvec f })) hmem,
      rfl, rfl, rfl, rfl, rfl⟩

/-- A concrete point used in witnesses. -/
noncomputable def ptW : Point3D := { xyz := (1, 2, 3), rgb := (10, 20, 30), error := 5, track := [(7, 8)] }

/-- A concrete image used in witnesses. -/
noncomputable def imgW : Image := { qvec := (1, 0, 0, 0), tvec := (4, 5, 6), camera_id := 1, name := "im", points2D := [(9, 9, 4)] }

/-- A concrete camera used in witnesses. -/
noncomputable def camW : Camera := { model := 2, width := 100, height := 200, params := [1, 2, 3, 4] }

/-- Witness for C9 at a concrete one-point, one-camera, one-image model. -/
theorem apply_scale_frame_witness :
    (apply_scale [(1, ptW)] [(0, camW)] [(2, imgW)] 2).2.1 = [(0, camW)] ∧
    (∃ p', (1, p') ∈ (apply_scale [(1, ptW)] [(0, camW)] [(2, imgW)] 2).1 ∧
      p'.xyz = vscale ptW.xyz 2 ∧ p'.rgb = ptW.rgb ∧ p'.error = ptW.error ∧ p'.track = ptW.track) ∧
    (∃ im', (2, im') ∈ (apply_scale [(1, ptW)] [(0, camW)] [(2, imgW)] 2).2.2 ∧
      im'.tvec = vscale imgW.tvec 2 ∧ im'.qvec = imgW.qvec ∧ im'.camera_id = imgW.camera_id ∧
      im'.name = imgW.name ∧ im'.points2D = imgW.points2D) :=
  ⟨(apply_scale_frame [(1, ptW)] [(0, camW)] [(2, imgW)] 2).1,
   (apply_scale_frame [(1, ptW)] [(0, camW)] [(2, imgW)] 2).2.2.2.1 1 ptW (by simp),
   (apply_scale_frame [(1, ptW)] [(0, camW)] [(2, imgW)] 2).2.2.2.2 2 imgW (by simp)⟩

/- ------------------------------------------------------------------ -/
/- C8: angle symmetry and clamping                                     -/
/- ------------------------------------------------------------------ -/

/-- C8: calculate_angle is symmetric under swapping the two endpoint ids,
and the clamp applied to the cosine before arccos always lies in [-1, 1]. -/
theorem calculate_angle_symm (s : MeasurementSystem) (p1 p2 p3 : ℕ) :
    calculate_angle s p1 p2 p3 = calculate_angle s p3 p2 p1 ∧
    (∀ x : ℝ, -1 ≤ npClip x (-1) 1 ∧ npClip x (-1) 1 ≤ 1) := by
  constructor
  · rcases h1 : s.points3D.lookup p1 with _ | q1 <;>
      rcases h2 : s.points3D.lookup p2 with _ | q2 <;>
      rcases h3 : s.points3D.lookup p3 with _ | q3 <;>
      simp only [calculate_angle, h1, h2, h3]
    rw [vdot_comm, mul_comm (vnorm (vsub q1.xyz q2.xyz))]
  · intro x
    refine ⟨le_min (le_max_right x (-1)) (by norm_num), min_le_right _ _⟩

/- ------------------------------------------------------------------ -/
/- C10: unguarded division in calculate_angle                          -/
/- ------------------------------------------------------------------ -/

/-- C10: when both endpoints resolve to coordinates different from the
vertex, the divisor in calculate_angle is nonzero and the returned angle
lies in [0, 180] degrees; when an endpoint coincides with the vertex the
divisor is zero yet the function still returns a value (no error branch). -/
theorem calculate_angle_division (s : MeasurementSystem) (p1 p2 p3 : ℕ) (q1 q2 q3 : Point3D)
    (h1 : s.points3D.lookup p1 = some q1) (h2 : s.points3D.lookup p2 = some q2)
    (h3 : s.points3D.lookup p3 = some q3) :
    (q1.xyz ≠ q2.xyz → q3.xyz ≠ q2.xyz →
      vnorm (vsub q1.xyz q2.xyz) * vnorm (vsub q3.xyz q2.xyz) ≠ 0 ∧
      ∃ θ, calculate_angle s p1 p2 p3 = .ok θ ∧ 0 ≤ θ ∧ θ ≤ 180) ∧
    ((q1.xyz = q2.xyz ∨ q3.xyz = q2.xyz) →
      vnorm (vsub q1.xyz q2.xyz) * vnorm (vsub q3.xyz q2.xyz) = 0 ∧
      ∃ θ, calculate_angle s p1 p2 p3 = .ok θ) := by
  have hval : calculate_angle s p1 p2 p3 =
      .ok (Real.arccos (npClip (vdot (vsub q1.xyz q2.xyz) (vsub q3.xyz q2.xyz) /
        (vnorm (vsub q1.xyz q2.xyz) * vnorm (vsub q3.xyz q2.xyz))) (-1) 1) * (180 / Real.pi)) := by
    simp only [calculate_angle, h1, h2, h3]
  have hbound : ∀ c : ℝ, 0 ≤ Real.arccos c * (180 / Real.pi) ∧
      Real.arccos c * (180 / Real.pi) ≤ 180 := by
    intro c
    constructor
    · exact mul_nonneg (Real.arccos_nonneg c) (by positivity)
    · calc Real.arccos c * (180 / Real.pi)
          ≤ Real.pi * (180 / Real.pi) :=
            mul_le_mul_of_nonneg_right (Real.arccos_le_pi c) (by positivity)
        _ = 180 := by field_simp
  constructor
  · intro hne1 hne3
    refine ⟨?_, _, hval, hbound _⟩
    exact mul_ne_zero (ne_of_gt (vnorm_pos_of_ne _ _ hne1)) (ne_of_gt (vnorm_pos_of_ne _ _ hne3))
  · intro hcase
    refine ⟨?_, _, hval⟩
    rcases hcase with hq | hq
    · rw [(vnorm_eq_zero_iff _).mpr ((vsub_eq_zero_iff _ _).mpr hq), zero_mul]
    · rw [(vnorm_eq_zero_iff _).mpr ((vsub_eq_zero_iff _ _).mpr hq), mul_zero]

/-- A point at (1,0,0) with default attributes, used in witnesses. -/
noncomputable def ptX : Point3D := { xyz := (1, 0, 0), rgb := (0, 0, 0), error := 0, track := [] }

/-- A point at the origin with default attributes, used in witnesses. -/
noncomputable def ptO : Point3D := { xyz := (0, 0, 0), rgb := (0, 0, 0), error := 0, track := [] }

/-- A point at (0,1,0) with default attributes, used in witnesses. -/
noncomputable def ptY : Point3D := { xyz := (0, 1, 0), rgb := (0, 0, 0), error := 0, track := [] }

/-- A three-point measurement state used in witnesses. -/
noncomputable def sAng : MeasurementSystem :=
  { cameras := [], images := [], points3D := [(1, ptX), (2, ptO), (3, ptY)],
    scale_factor := 1, measurements := [] }

/-- Witness for C10 at the right angle (1,0,0)-(0,0,0)-(0,1,0). -/
theorem calculate_angle_division_witness :
    vnorm (vsub ptX.xyz ptO.xyz) * vnorm (vsub ptY.xyz ptO.xyz) ≠ 0 ∧
    ∃ θ, calculate_angle sAng 1 2 3 = .ok θ ∧ 0 ≤ θ ∧ θ ≤ 180 :=
  (calculate_angle_division sAng 1 2 3 ptX ptO ptY rfl rfl rfl).1
    (by simp [ptX, ptO, Prod.ext_iff]) (by simp [ptY, ptO, Prod.ext_iff])

/-- Evaluate vnorm from an exact square decomposition of the dot product. -/
theorem vnorm_eq (v : Vec3) (r : ℝ) (hr : 0 ≤ r) (h : vdot v v = r * r) : vnorm v = r := by
  unfold vnorm; rw [h, Real.sqrt_mul_self hr]

/- ------------------------------------------------------------------ -/
/- C3: calibrate_from_known_distance                                   -/
/- ------------------------------------------------------------------ -/

/-- C3: if the raw separation of the two reference points is below 1e-6 the
calibration raises and the entire prior state (scale_factor, method, unit,
reference_distance) is retained; otherwise scale_factor becomes
known_distance / raw, the method becomes known_distance and the unit
becomes meters. -/
theorem calibrate_known_distance_spec (c : CalibrationSystem) (a b : Vec3) (kd : ℝ) :
    (vnorm (vsub b a) < 1e-6 →
      calibrateRun c a b kd = (c, .error .degenerateInput)) ∧
    (1e-6 ≤ vnorm (vsub b a) →
      calibrateRun c a b kd =
        ({ c with
           scale_factor := kd / vnorm (vsub b a)
           calibration_method := "known_distance"
           reference_distance := some kd
           unit := "meters" }, .ok (kd / vnorm (vsub b a)))) := by
  constructor
  · intro h
    simp only [calibrateRun, calibrate_from_known_distance, if_pos h]
  · intro h
    simp only [calibrateRun, calibrate_from_known_distance, if_neg (not_lt.mpr h)]

/-- The freshly constructed CalibrationSystem state (constructor defaults). -/
noncomputable def calInit : CalibrationSystem :=
  { scale_factor := 1, calibration_method := "uncalibrated",
    reference_distance := none, unit := "reconstruction_units" }

/-- Witness for C3: the 175-unit / 3.5 m calibration succeeds with
scale_factor 0.02, and a degenerate pair is rejected with the state kept. -/
theorem calibrate_known_distance_witness :
    calibrateRun calInit ((0 : ℝ), (0 : ℝ), (0 : ℝ)) ((175 : ℝ), (0 : ℝ), (0 : ℝ)) 3.5 =
      ({ calInit with
         scale_factor := 3.5 / 175
         calibration_method := "known_distance"
         reference_distance := some 3.5
         unit := "meters" }, .ok (3.5 / 175)) ∧
    calibrateRun calInit ((1 : ℝ), (2 : ℝ), (3 : ℝ)) ((1 : ℝ), (2 : ℝ), (3 : ℝ)) 5 =
      (calInit, .error .degenerateInput) := by
  have h175 : vnorm (vsub ((175 : ℝ), (0 : ℝ), (0 : ℝ)) ((0 : ℝ), (0 : ℝ), (0 : ℝ))) = 175 :=
    vnorm_eq _ 175 (by norm_num) (by norm_num [vdot, vsub])
  have h0 : vnorm (vsub ((1 : ℝ), (2 : ℝ), (3 : ℝ)) ((1 : ℝ), (2 : ℝ), (3 : ℝ))) = 0 :=
    vnorm_eq _ 0 le_rfl (by norm_num [vdot, vsub])
  constructor
  · have h := (calibrate_known_distance_spec calInit ((0 : ℝ), (0 : ℝ), (0 : ℝ))
      ((175 : ℝ), (0 : ℝ), (0 : ℝ)) 3.5).2 (by rw [h175]; norm_num)
    rw [h175] at h
    exact h
  · exact (calibrate_known_distance_spec calInit ((1 : ℝ), (2 : ℝ), (3 : ℝ))
      ((1 : ℝ), (2 : ℝ), (3 : ℝ)) 5).1 (by rw [h0]; norm_num)

/- ------------------------------------------------------------------ -/
/- Evaluation lemmas for the MeasurementSystem operations              -/
/- ------------------------------------------------------------------ -/

theorem calibrate_scale_eq (s : MeasurementSystem) (p1 p2 : ℕ) (kd : ℝ) (q1 q2 : Point3D)
    (h1 : s.points3D.lookup p1 = some q1) (h2 : s.points3D.lookup p2 = some q2)
    (hne : calculate_distance q1.xyz q2.xyz ≠ 0) :
    calibrate_scale s p1 p2 kd = .ok
      ({ s with
         points3D := (apply_scale s.points3D s.cameras s.images
           (kd / calculate_distance q1.xyz q2.xyz)).1
         cameras := (apply_scale s.points3D s.cameras s.images
           (kd / calculate_distance q1.xyz q2.xyz)).2.1
         images := (apply_scale s.points3D s.cameras s.images
           (kd / calculate_distance q1.xyz q2.xyz)).2.2
         scale_factor := kd / calculate_distance q1.xyz q2.xyz },
       { scale_factor := kd / calculate_distance q1.xyz q2.xyz, known_distance := kd,
         reconstruction_distance := calculate_distance q1.xyz q2.xyz }) := by
  simp only [calibrate_scale, h1, h2, if_neg hne]

theorem calculate_thickness_eq (s : MeasurementSystem) (p1 p2 : ℕ) (q1 q2 : Point3D)
    (h1 : s.points3D.lookup p1 = some q1) (h2 : s.points3D.lookup p2 = some q2) :
    calculate_thickness s p1 p2 = .ok (calculate_distance q1.xyz q2.xyz * s.scale_factor) := by
  simp only [calculate_thickness, h1, h2]

theorem add_measurement_eq (s : MeasurementSystem) (p1 p2 : ℕ) (label : String)
    (q1 q2 : Point3D)
    (h1 : s.points3D.lookup p1 = some q1) (h2 : s.points3D.lookup p2 = some q2) :
    add_measurement s p1 p2 label = .ok
      ({ s with
         measurements := s.measurements ++
           [{ id := s.measurements.length
              point1_id := p1
              point2_id := p2
              point1_xyz := q1.xyz
              point2_xyz := q2.xyz
              distance_meters := calculate_distance q1.xyz q2.xyz
              distance_cm := calculate_distance q1.xyz q2.xyz * 100
              distance_mm := calculate_distance q1.xyz q2.xyz * 1000
              label := if label = "" then "Measurement " ++ toString (s.measurements.length + 1)
                       else label
              scaled := if s.scale_factor = 1 then false else true }] },
       { id := s.measurements.length
         point1_id := p1
         point2_id := p2
         point1_xyz := q1.xyz
         point2_xyz := q2.xyz
         distance_meters := calculate_distance q1.xyz q2.xyz
         distance_cm := calculate_distance q1.xyz q2.xyz * 100
         distance_mm := calculate_distance q1.xyz q2.xyz * 1000
         label := if label = "" then "Measurement " ++ toString (s.measurements.length + 1)
                  else label
         scaled := if s.scale_factor = 1 then false else true }) := by
  simp only [add_measurement, h1, h2]

/- ------------------------------------------------------------------ -/
/- C5: the scaled flag of a measurement                                -/
/- ------------------------------------------------------------------ -/

/-- C5 (amended): a measurement created by add_measurement has scaled = true
exactly when the current scale_factor differs from 1.0, regardless of how
(or whether) a calibration produced that value. -/
theorem add_measurement_scaled_iff (s : MeasurementSystem) (p1 p2 : ℕ) (label : String)
    (s' : MeasurementSystem) (m : Measurement)
    (h : add_measurement s p1 p2 label = .ok (s', m)) :
    m.scaled = true ↔ s.scale_factor ≠ 1 := by
  rcases h1 : s.points3D.lookup p1 with _ | q1 <;>
    rcases h2 : s.points3D.lookup p2 with _ | q2 <;>
    simp only [add_measurement, h1, h2, Except.ok.injEq, Prod.mk.injEq, reduceCtorEq] at h
  obtain ⟨-, hm⟩ := h
  subst hm
  by_cases hsf : s.scale_factor = 1 <;> simp [hsf]

/-- Witness for C5 (amended) at a concrete two-point state with
scale_factor 1: the created measurement has scaled = true iff the state's
scale_factor differs from 1. -/
theorem add_measurement_scaled_iff_witness :
    ∃ s' m, add_measurement sAng 1 2 "" = .ok (s', m) ∧
      (m.scaled = true ↔ sAng.scale_factor ≠ 1) :=
  ⟨_, _, add_measurement_eq sAng 1 2 "" ptX ptO rfl rfl,
   add_measurement_scaled_iff sAng 1 2 "" _ _ (add_measurement_eq sAng 1 2 "" ptX ptO rfl rfl)⟩

/-- A point at (2,0,0) with default attributes, used in the C5 counterexample. -/
noncomputable def pt2a : Point3D := { xyz := (2, 0, 0), rgb := (0, 0, 0), error := 0, track := [] }

/-- Two points 2.0 raw units apart: calibrating them against a known distance
of 2.0 meters is a real calibration that yields scale_factor 1.0. -/
noncomputable def sCal : MeasurementSystem :=
  { cameras := [], images := [], points3D := [(1, ptO), (2, pt2a)],
    scale_factor := 1, measurements := [] }

/-- Counterexample for C5: a calibration is performed (calibrate_scale
succeeds), yet the next measurement has scaled = false, because the code
sets scaled from the numeric test scale_factor != 1.0, which here is 1.0. -/
theorem add_measurement_scaled_counterexample :
    ∃ s1 r s2 m,
      calibrate_scale sCal 1 2 2 = .ok (s1, r) ∧
      add_measurement s1 1 2 "" = .ok (s2, m) ∧
      m.scaled = false := by
  have hd : calculate_distance ptO.xyz pt2a.xyz = 2 :=
    vnorm_eq _ 2 (by norm_num) (by norm_num [calculate_distance, vdot, vsub, ptO, pt2a])
  have hcal := calibrate_scale_eq sCal 1 2 2 ptO pt2a rfl rfl (by rw [hd]; norm_num)
  rw [hd] at hcal
  refine ⟨_, _, _, _, hcal, add_measurement_eq _ 1 2 "" _ _ rfl rfl, ?_⟩
  norm_num

/- ------------------------------------------------------------------ -/
/- C1: end-to-end calibration and thickness                            -/
/- ------------------------------------------------------------------ -/

/-- A point at (175,0,0), used in the C1 scenario. -/
noncomputable def pt175 : Point3D := { xyz := (175, 0, 0), rgb := (0, 0, 0), error := 0, track := [] }

/-- A point at (50,0,0), used in the C1 scenario. -/
noncomputable def pt50 : Point3D := { xyz := (50, 0, 0), rgb := (0, 0, 0), error := 0, track := [] }

/-- The C1 scenario state: reference points 175.0 raw units apart and a
second pair 50.0 raw units apart. -/
noncomputable def sThick : MeasurementSystem :=
  { cameras := [], images := [], points3D := [(1, ptO), (2, pt175), (3, pt50)],
    scale_factor := 1, measurements := [] }

/-- The C1 scenario state after calibrate_scale: every coordinate rescaled by
0.02 and scale_factor stored as 3.5/175. -/
noncomputable def sThick1 : MeasurementSystem :=
  { cameras := [], images := [],
    points3D := [(1, { ptO with xyz := vscale ptO.xyz (3.5 / 175) }),
                 (2, { pt175 with xyz := vscale pt175.xyz (3.5 / 175) }),
                 (3, { pt50 with xyz := vscale pt50.xyz (3.5 / 175) })],
    scale_factor := 3.5 / 175, measurements := [] }

/-- C1 divergence: calibrating the 175-unit pair against 3.5 m does give
scale_factor 0.02, but the subsequent thickness over the 50-unit pair
returns 0.02, not the specified 1.0: calibrate_scale has already rescaled
the coordinates (so their stored distance is 1.0, as add_measurement
reports) and calculate_thickness multiplies by scale_factor a second time. -/
theorem thickness_double_scaling :
    ∃ s1 r, calibrate_scale sThick 1 2 3.5 = .ok (s1, r) ∧
      r.scale_factor = 0.02 ∧
      calculate_thickness s1 1 3 = .ok 0.02 ∧
      (∃ s2 m, add_measurement s1 1 3 "" = .ok (s2, m) ∧ m.distance_meters = 1) ∧
      (0.02 : ℝ) ≠ 1 := by
  have hd : calculate_distance ptO.xyz pt175.xyz = 175 :=
    vnorm_eq _ 175 (by norm_num) (by norm_num [calculate_distance, vdot, vsub, ptO, pt175])
  have hcal := calibrate_scale_eq sThick 1 2 3.5 ptO pt175 rfl rfl (by rw [hd]; norm_num)
  rw [hd] at hcal
  have hcal' : calibrate_scale sThick 1 2 3.5 = .ok (sThick1,
      { scale_factor := 3.5 / 175, known_distance := 3.5, reconstruction_distance := 175 }) := hcal
  have hd2 : calculate_distance (vscale ptO.xyz (3.5 / 175)) (vscale pt50.xyz (3.5 / 175)) = 1 :=
    vnorm_eq _ 1 (by norm_num) (by norm_num [calculate_distance, vdot, vsub, vscale, ptO, pt50])
  refine ⟨sThick1, _, hcal', by norm_num, ?_, ?_, by norm_num⟩
  · have ht := calculate_thickness_eq sThick1 1 3 _ _ rfl rfl
    rw [ht]
    show Except.ok (calculate_distance (vscale ptO.xyz (3.5 / 175)) (vscale pt50.xyz (3.5 / 175)) *
      (3.5 / 175 : ℝ)) = _
    rw [hd2]
    norm_num
  · refine ⟨_, _, add_measurement_eq sThick1 1 3 "" _ _ rfl rfl, ?_⟩
    show calculate_distance (vscale ptO.xyz (3.5 / 175)) (vscale pt50.xyz (3.5 / 175)) = 1
    exact hd2

/- ------------------------------------------------------------------ -/
/- C2: find_nearest_point                                              -/
/- ------------------------------------------------------------------ -/

theorem fnp_fold_none (target : Vec3) (maxd : ℝ) :
    ∀ (l : List (ℕ × Point3D)) (acc : Option (ℕ × ℝ)),
      l.foldl (fnpStep target maxd) acc = none →
      acc = none ∧ ∀ e ∈ l, ¬ vnorm (vsub e.2.xyz target) < maxd := by
  intro l
  induction l with
  | nil => intro acc h; exact ⟨h, by simp⟩
  | cons e t ih =>
    intro acc h
    rw [List.foldl_cons] at h
    obtain ⟨hstep, hall⟩ := ih (fnpStep target maxd acc e) h
    have hd : ¬ vnorm (vsub e.2.xyz target) < maxd ∧ acc = none := by
      rcases acc with _ | b
      · refine ⟨?_, rfl⟩
        intro hlt
        simp only [fnpStep, if_pos hlt] at hstep
        exact Option.noConfusion hstep
      · exfalso
        by_cases hc : vnorm (vsub e.2.xyz target) < b.2 ∧ vnorm (vsub e.2.xyz target) < maxd
        · simp only [fnpStep, if_pos hc] at hstep
          exact Option.noConfusion hstep
        · simp only [fnpStep, if_neg hc] at hstep
          exact Option.noConfusion hstep
    refine ⟨hd.2, ?_⟩
    intro e' he'
    rcases List.mem_cons.mp he' with rfl | hmem
    · exact hd.1
    · exact hall e' hmem

theorem fnp_fold_none_of (target : Vec3) (maxd : ℝ) :
    ∀ (l : List (ℕ × Point3D)),
      (∀ e ∈ l, ¬ vnorm (vsub e.2.xyz target) < maxd) →
      l.foldl (fnpStep target maxd) none = none := by
  intro l
  induction l with
  | nil => intro _; rfl
  | cons e t ih =>
    intro hall
    rw [List.foldl_cons]
    have hstep : fnpStep target maxd none e = none := by
      simp only [fnpStep, if_neg (hall e (List.mem_cons_self e t))]
    rw [hstep]
    exact ih fun e' he' => hall e' (List.mem_cons_of_mem e he')

theorem fnp_fold_some (target : Vec3) (maxd : ℝ) :
    ∀ (l : List (ℕ × Point3D)) (acc : Option (ℕ × ℝ)) (nid : ℕ) (d : ℝ),
      l.foldl (fnpStep target maxd) acc = some (nid, d) →
      (acc = some (nid, d) ∧
        ∀ e ∈ l, ¬(vnorm (vsub e.2.xyz target) < d ∧ vnorm (vsub e.2.xyz target) < maxd)) ∨
      (d < maxd ∧ ∃ l1 e l2, l = l1 ++ e :: l2 ∧ e.1 = nid ∧
        vnorm (vsub e.2.xyz target) = d ∧
        (∀ b, acc = some b → d < b.2) ∧
        (∀ e' ∈ l1, vnorm (vsub e'.2.xyz target) < maxd → d < vnorm (vsub e'.2.xyz target)) ∧
        (∀ e' ∈ l2,
          ¬(vnorm (vsub e'.2.xyz target) < d ∧ vnorm (vsub e'.2.xyz target) < maxd))) := by
  intro l
  induction l with
  | nil =>
    intro acc nid d h
    exact Or.inl ⟨h, by simp⟩
  | cons e t ih =>
    intro acc nid d h
    rw [List.foldl_cons] at h
    rcases ih (fnpStep target maxd acc e) nid d h with
      ⟨hstep, hall⟩ | ⟨hdm, l1, e', l2, hteq, hid, hde, haccb, hl1, hl2⟩
    · -- the accumulator passed unchanged through t; analyze the first step
      rcases acc with _ | b
      · by_cases hc : vnorm (vsub e.2.xyz target) < maxd
        · simp only [fnpStep, if_pos hc, Option.some.injEq, Prod.mk.injEq] at hstep
          refine Or.inr ⟨hstep.2 ▸ hc, [], e, t, rfl, hstep.1, hstep.2, by simp, by simp, hall⟩
        · simp only [fnpStep, if_neg hc] at hstep
          exact Option.noConfusion hstep
      · by_cases hc : vnorm (vsub e.2.xyz target) < b.2 ∧ vnorm (vsub e.2.xyz target) < maxd
        · simp only [fnpStep, if_pos hc, Option.some.injEq, Prod.mk.injEq] at hstep
          refine Or.inr ⟨hstep.2 ▸ hc.2, [], e, t, rfl, hstep.1, hstep.2, ?_, by simp, hall⟩
          intro b' hb'
          obtain rfl : b = b' := by simpa using hb'
          exact hstep.2 ▸ hc.1
        · simp only [fnpStep, if_neg hc, Option.some.injEq] at hstep
          subst hstep
          refine Or.inl ⟨rfl, ?_⟩
          intro e'' he''
          rcases List.mem_cons.mp he'' with rfl | hmem
          · exact hc
          · exact hall e'' hmem
    · -- the winner lives inside t
      right
      refine ⟨hdm, e :: l1, e', l2, by simp [hteq], hid, hde, ?_, ?_, hl2⟩
      · intro b hb
        subst hb
        by_cases hc : vnorm (vsub e.2.xyz target) < b.2 ∧ vnorm (vsub e.2.xyz target) < maxd
        · have hlt := haccb (e.1, vnorm (vsub e.2.xyz target)) (by simp only [fnpStep, if_pos hc])
          exact lt_trans hlt hc.1
        · exact haccb b (by simp only [fnpStep, if_neg hc])
      · intro e'' he'' hq
        rcases List.mem_cons.mp he'' with rfl | hmem
        · rcases hacc : acc with _ | b
          · exact haccb (e''.1, vnorm (vsub e''.2.xyz target))
              (by rw [hacc]; simp only [fnpStep, if_pos hq])
          · by_cases hc : vnorm (vsub e''.2.xyz target) < b.2 ∧ vnorm (vsub e''.2.xyz target) < maxd
            · exact haccb (e''.1, vnorm (vsub e''.2.xyz target))
                (by rw [hacc]; simp only [fnpStep, if_pos hc])
            · have hd' : d < b.2 := haccb b (by rw [hacc]; simp only [fnpStep, if_neg hc])
              have hble : b.2 ≤ vnorm (vsub e''.2.xyz target) := by
                by_contra hlt
                exact hc ⟨lt_of_not_le hlt, hq⟩
              exact lt_of_lt_of_le hd' hble
        · exact hl1 e'' hmem hq

/-- C2 (amended): find_nearest_point scans the points in insertion order and
returns the point with minimal Euclidean distance to the target among those
strictly within max_distance; on an exact tie of minimal distances the
earliest-inserted qualifying point wins (not necessarily the lowest id); it
raises when the reconstruction is empty or when no point qualifies. -/
theorem find_nearest_point_spec (s : MeasurementSystem) (target : Vec3) (maxd : ℝ) :
    (s.points3D = [] → find_nearest_point s target maxd = .error .notLoaded) ∧
    (s.points3D ≠ [] →
      ((find_nearest_point s target maxd = .error .noPointFound ↔
        ∀ e ∈ s.points3D, ¬ vnorm (vsub e.2.xyz target) < maxd) ∧
      (∀ nid, find_nearest_point s target maxd = .ok nid →
        ∃ l1 e l2, s.points3D = l1 ++ e :: l2 ∧ e.1 = nid ∧
          vnorm (vsub e.2.xyz target) < maxd ∧
          (∀ e' ∈ s.points3D, vnorm (vsub e'.2.xyz target) < maxd →
            vnorm (vsub e.2.xyz target) ≤ vnorm (vsub e'.2.xyz target)) ∧
          (∀ e' ∈ l1, vnorm (vsub e'.2.xyz target) < maxd →
            vnorm (vsub e.2.xyz target) < vnorm (vsub e'.2.xyz target))))) := by
  rcases hp : s.points3D with _ | ⟨e0, t0⟩
  · refine ⟨fun _ => ?_, fun hne => absurd rfl hne⟩
    simp only [find_nearest_point, hp]
  · refine ⟨fun heq => List.noConfusion heq, fun _ => ⟨⟨?_, ?_⟩, ?_⟩⟩
    · -- error case implies (and is implied by) universal failure
      intro herr
      rcases hf : (e0 :: t0).foldl (fnpStep target maxd) none with _ | b
      · exact (fnp_fold_none target maxd (e0 :: t0) none hf).2
      · exfalso
        simp only [find_nearest_point, hp, hf] at herr
        exact Except.noConfusion herr
    · intro hall
      simp only [find_nearest_point, hp, fnp_fold_none_of target maxd (e0 :: t0) hall]
    · -- success case: decompose the scan
      intro nid hok
      rcases hf : (e0 :: t0).foldl (fnpStep target maxd) none with _ | b
      · exfalso
        simp only [find_nearest_point, hp, hf] at hok
        exact Except.noConfusion hok
      · have hnid : b.1 = nid := by
          simp only [find_nearest_point, hp, hf, Except.ok.injEq] at hok
          exact hok
        rcases fnp_fold_some target maxd (e0 :: t0) none nid b.2
            (by rw [hf, ← hnid]) with ⟨habs, -⟩ | ⟨hdm, l1, e, l2, hleq, hid, hde, -, hl1, hl2⟩
        · exact Option.noConfusion habs
        · refine ⟨l1, e, l2, hleq, hid, hde ▸ hdm, ?_, ?_⟩
          · intro e' he' hq
            rw [hde]
            rw [hleq] at he'
            rcases List.mem_append.mp he' with hmem | hmem
            · exact le_of_lt (hl1 e' hmem hq)
            · rcases List.mem_cons.mp hmem with rfl | hmem'
              · exact hde.ge
              · by_contra hlt
                exact hl2 e' hmem' ⟨lt_of_not_le hlt, hq⟩
          · intro e' hmem hq
            rw [hde]
            exact hl1 e' hmem hq

/-- A point at (10,0,0) used in the C2 witness. -/
noncomputable def pt10 : Point3D := { xyz := (10, 0, 0), rgb := (0, 0, 0), error := 0, track := [] }

/-- The C2 example reconstruction: points 1:(0,0,0) and 2:(10,0,0). -/
noncomputable def sFind : MeasurementSystem :=
  { cameras := [], images := [], points3D := [(1, ptO), (2, pt10)],
    scale_factor := 1, measurements := [] }

/-- Witness for C2 on the spec example: target (1,0,0) with max_distance 2.0
returns id 1 (and the theorem yields its minimality decomposition), and
max_distance 0.5 raises. -/
theorem find_nearest_point_spec_witness :
    find_nearest_point sFind ((1 : ℝ), (0 : ℝ), (0 : ℝ)) 2 = .ok 1 ∧
    (∃ l1 e l2, sFind.points3D = l1 ++ e :: l2 ∧ e.1 = 1 ∧
      vnorm (vsub e.2.xyz ((1 : ℝ), (0 : ℝ), (0 : ℝ))) < 2 ∧
      (∀ e' ∈ sFind.points3D, vnorm (vsub e'.2.xyz ((1 : ℝ), (0 : ℝ), (0 : ℝ))) < 2 →
        vnorm (vsub e.2.xyz ((1 : ℝ), (0 : ℝ), (0 : ℝ))) ≤
          vnorm (vsub e'.2.xyz ((1 : ℝ), (0 : ℝ), (0 : ℝ)))) ∧
      (∀ e' ∈ l1, vnorm (vsub e'.2.xyz ((1 : ℝ), (0 : ℝ), (0 : ℝ))) < 2 →
        vnorm (vsub e.2.xyz ((1 : ℝ), (0 : ℝ), (0 : ℝ))) <
          vnorm (vsub e'.2.xyz ((1 : ℝ), (0 : ℝ), (0 : ℝ))))) ∧
    find_nearest_point sFind ((1 : ℝ), (0 : ℝ), (0 : ℝ)) 0.5 = .error .noPointFound := by
  have hv1 : vnorm (vsub ptO.xyz ((1 : ℝ), (0 : ℝ), (0 : ℝ))) = 1 :=
    vnorm_eq _ 1 (by norm_num) (by norm_num [vdot, vsub, ptO])
  have hv2 : vnorm (vsub pt10.xyz ((1 : ℝ), (0 : ℝ), (0 : ℝ))) = 9 :=
    vnorm_eq _ 9 (by norm_num) (by norm_num [vdot, vsub, pt10])
  have hok : find_nearest_point sFind ((1 : ℝ), (0 : ℝ), (0 : ℝ)) 2 = .ok 1 := by
    have hf : (sFind.points3D).foldl
        (fnpStep ((1 : ℝ), (0 : ℝ), (0 : ℝ)) 2) none = some (1, 1) := by
      show List.foldl _ _ [(1, ptO), (2, pt10)] = _
      rw [List.foldl_cons, List.foldl_cons, List.foldl_nil]
      rw [show fnpStep ((1 : ℝ), (0 : ℝ), (0 : ℝ)) 2 none (1, ptO) = some (1, 1) by
        simp only [fnpStep]; rw [hv1]; norm_num]
      simp only [fnpStep]
      rw [hv2]
      norm_num
    simp only [find_nearest_point, hf]
    rfl
  refine ⟨hok, ?_, ?_⟩
  · exact (find_nearest_point_spec sFind ((1 : ℝ), (0 : ℝ), (0 : ℝ)) 2).2
      (by simp [sFind]) |>.2 1 hok
  · exact ((find_nearest_point_spec sFind ((1 : ℝ), (0 : ℝ), (0 : ℝ)) 0.5).2
      (by simp [sFind])).1.mpr (by
        intro e he
        rcases List.mem_cons.mp he with rfl | he'
        · rw [hv1]; norm_num
        · rcases List.mem_cons.mp he' with rfl | he''
          · rw [hv2]; norm_num
          · exact absurd he'' (List.not_mem_nil _))

/-- The tie state for the C2 counterexample: insertion order puts id 2 first;
both points are at distance exactly 1 from the target (1,0,0). -/
noncomputable def sTie : MeasurementSystem :=
  { cameras := [], images := [], points3D := [(2, ptO), (1, pt2a)],
    scale_factor := 1, measurements := [] }

/-- Counterexample for C2: two points at the same minimal distance 1 from the
target; the claim requires the lowest id (1) to win, but the code returns the
first point in dict insertion order, id 2. -/
theorem find_nearest_point_tie_counterexample :
    vnorm (vsub ptO.xyz ((1 : ℝ), (0 : ℝ), (0 : ℝ))) =
      vnorm (vsub pt2a.xyz ((1 : ℝ), (0 : ℝ), (0 : ℝ))) ∧
    find_nearest_point sTie ((1 : ℝ), (0 : ℝ), (0 : ℝ)) 5 = .ok 2 ∧
    find_nearest_point sTie ((1 : ℝ), (0 : ℝ), (0 : ℝ)) 5 ≠ .ok 1 := by
  have hv1 : vnorm (vsub ptO.xyz ((1 : ℝ), (0 : ℝ), (0 : ℝ))) = 1 :=
    vnorm_eq _ 1 (by norm_num) (by norm_num [vdot, vsub, ptO])
  have hv2 : vnorm (vsub pt2a.xyz ((1 : ℝ), (0 : ℝ), (0 : ℝ))) = 1 :=
    vnorm_eq _ 1 (by norm_num) (by norm_num [vdot, vsub, pt2a])
  have hok : find_nearest_point sTie ((1 : ℝ), (0 : ℝ), (0 : ℝ)) 5 = .ok 2 := by
    have hf : (sTie.points3D).foldl
        (fnpStep ((1 : ℝ), (0 : ℝ), (0 : ℝ)) 5) none = some (2, 1) := by
      show List.foldl _ _ [(2, ptO), (1, pt2a)] = _
      rw [List.foldl_cons, List.foldl_cons, List.foldl_nil]
      rw [show fnpStep ((1 : ℝ), (0 : ℝ), (0 : ℝ)) 5 none (2, ptO) = some (2, 1) by
        simp only [fnpStep]; rw [hv1]; norm_num]
      simp only [fnpStep]
      rw [hv2]
      norm_num
    simp only [find_nearest_point, hf]
    rfl
  refine ⟨by rw [hv1, hv2], hok, ?_⟩
  rw [hok]
  simp

/- ------------------------------------------------------------------ -/
/- C6: best-model selection                                            -/
/- ------------------------------------------------------------------ -/

theorem insertByName_perm (e : String × Option ℕ) :
    ∀ l : List (String × Option ℕ), List.Perm (insertByName e l) (e :: l) := by
  intro l
  induction l with
  | nil => exact List.Perm.refl _
  | cons a t ih =>
    cases hc : strLt e.1 a.1
    · simp only [insertByName, hc, Bool.false_eq_true, if_false]
      exact List.Perm.trans (List.Perm.cons a ih) (List.Perm.swap e a t)
    · simp only [insertByName, hc, if_true]
      exact List.Perm.refl _

theorem sortByName_perm (l : List (String × Option ℕ)) :
    List.Perm (sortByName l) l := by
  induction l with
  | nil => exact List.Perm.refl _
  | cons a t ih =>
    exact List.Perm.trans (insertByName_perm a (sortByName t)) (List.Perm.cons a ih)

theorem best_fold (l : List (String × Option ℕ)) :
    ∀ acc : String × ℕ,
      acc.2 ≤ (List.foldl bestStep acc l).2 ∧
      (∀ e ∈ l, ∀ sz, e.2 = some sz → sz / 48 ≤ (List.foldl bestStep acc l).2) ∧
      (List.foldl bestStep acc l = acc ∨
        (acc.2 < (List.foldl bestStep acc l).2 ∧
         ∃ l1 e l2 sz, l = l1 ++ e :: l2 ∧ e.1 = (List.foldl bestStep acc l).1 ∧
           e.2 = some sz ∧ sz / 48 = (List.foldl bestStep acc l).2 ∧
           ∀ e' ∈ l1, ∀ sz', e'.2 = some sz' → sz' / 48 < (List.foldl bestStep acc l).2)) := by
  induction l with
  | nil =>
    intro acc
    exact ⟨le_refl _, by simp, Or.inl rfl⟩
  | cons e t ih =>
    intro acc
    rw [List.foldl_cons]
    rcases he : e.2 with _ | sz
    · -- no points3D.bin: the candidate is skipped
      have hstep : bestStep acc e = acc := by simp only [bestStep, he]
      rw [hstep]
      obtain ⟨h1, h2, h3⟩ := ih acc
      refine ⟨h1, ?_, ?_⟩
      · intro e' he' sz' hsz'
        rcases List.mem_cons.mp he' with rfl | hmem
        · rw [he] at hsz'; exact Option.noConfusion hsz'
        · exact h2 e' hmem sz' hsz'
      · rcases h3 with h3 | ⟨hlt, l1, e'', l2, szv, hteq, hname, hsz, hcnt, hl1⟩
        · exact Or.inl h3
        · refine Or.inr ⟨hlt, e :: l1, e'', l2, szv, by simp [hteq], hname, hsz, hcnt, ?_⟩
          intro e' he' sz' hsz'
          rcases List.mem_cons.mp he' with rfl | hmem
          · rw [he] at hsz'; exact Option.noConfusion hsz'
          · exact hl1 e' hmem sz' hsz'
    · by_cases hc : sz / 48 > acc.2
      · -- this candidate replaces the current best
        have hstep : bestStep acc e = (e.1, sz / 48) := by
          simp only [bestStep, he, if_pos hc]
        rw [hstep]
        obtain ⟨h1, h2, h3⟩ := ih (e.1, sz / 48)
        refine ⟨le_trans (le_of_lt hc) h1, ?_, ?_⟩
        · intro e' he' sz' hsz'
          rcases List.mem_cons.mp he' with rfl | hmem
          · have : sz' = sz := by rw [he] at hsz'; exact (Option.some.injEq _ _ ▸ hsz').symm
            rw [this]; exact h1
          · exact h2 e' hmem sz' hsz'
        · rcases h3 with h3 | ⟨hlt, l1, e'', l2, szv, hteq, hname, hsz, hcnt, hl1⟩
          · refine Or.inr ⟨by rw [h3]; exact hc, [], e, t, sz, rfl, by rw [h3], he, by rw [h3], ?_⟩
            intro e' he'
            exact absurd he' (List.not_mem_nil e')
          · refine Or.inr ⟨lt_trans hc hlt, e :: l1, e'', l2, szv, by simp [hteq], hname, hsz,
              hcnt, ?_⟩
            intro e' he' sz' hsz'
            rcases List.mem_cons.mp he' with rfl | hmem
            · have : sz' = sz := by rw [he] at hsz'; exact (Option.some.injEq _ _ ▸ hsz').symm
              rw [this]; exact hlt
            · exact hl1 e' hmem sz' hsz'
      · -- count not strictly greater: the current best is kept
        have hstep : bestStep acc e = acc := by simp only [bestStep, he, if_neg hc]
        rw [hstep]
        obtain ⟨h1, h2, h3⟩ := ih acc
        refine ⟨h1, ?_, ?_⟩
        · intro e' he' sz' hsz'
          rcases List.mem_cons.mp he' with rfl | hmem
          · have : sz' = sz := by rw [he] at hsz'; exact (Option.some.injEq _ _ ▸ hsz').symm
            rw [this]; exact le_trans (not_lt.mp hc) h1
          · exact h2 e' hmem sz' hsz'
        · rcases h3 with h3 | ⟨hlt, l1, e'', l2, szv, hteq, hname, hsz, hcnt, hl1⟩
          · exact Or.inl h3
          · refine Or.inr ⟨hlt, e :: l1, e'', l2, szv, by simp [hteq], hname, hsz, hcnt, ?_⟩
            intro e' he' sz' hsz'
            rcases List.mem_cons.mp he' with rfl | hmem
            · have : sz' = sz := by rw [he] at hsz'; exact (Option.some.injEq _ _ ▸ hsz').symm
              rw [this]; exact lt_of_le_of_lt (not_lt.mp hc) hlt
            · exact hl1 e' hmem sz' hsz'

/-- C6 (amended): with no candidates the selector returns (None, {}); with
candidates it returns one whose point count (file size // 48) is maximal,
and ties resolve to the earliest candidate in lexicographic (string-sorted)
directory-name order, because only a strictly greater count replaces the
current best; when every candidate has count 0 the first sorted candidate
is returned by default. -/
theorem find_best_model_spec (dirs : List (String × Option ℕ)) :
    (dirs = [] → find_best_model dirs = (none, none)) ∧
    (dirs ≠ [] → ∃ nm st, find_best_model dirs = (some nm, some st) ∧
      st.model_id = nm ∧ st.num_models = dirs.length ∧
      (∀ e ∈ dirs, ∀ sz, e.2 = some sz → sz / 48 ≤ st.points_3d) ∧
      (0 < st.points_3d →
        ∃ l1 e l2 sz, sortByName dirs = l1 ++ e :: l2 ∧ e.1 = nm ∧ e.2 = some sz ∧
          sz / 48 = st.points_3d ∧
          ∀ e' ∈ l1, ∀ sz', e'.2 = some sz' → sz' / 48 < st.points_3d) ∧
      (st.points_3d = 0 → ∃ d0 rest, sortByName dirs = d0 :: rest ∧ nm = d0.1)) := by
  constructor
  · rintro rfl
    rfl
  · intro hne
    rcases hs : sortByName dirs with _ | ⟨d0, rest⟩
    · exact absurd (List.Perm.eq_nil (List.Perm.symm (hs ▸ sortByName_perm dirs))) hne
    · obtain ⟨h1, h2, h3⟩ := best_fold (d0 :: rest) (d0.1, 0)
      refine ⟨(List.foldl bestStep (d0.1, 0) (d0 :: rest)).1,
        { num_models := (d0 :: rest).length,
          points_3d := (List.foldl bestStep (d0.1, 0) (d0 :: rest)).2,
          model_id := (List.foldl bestStep (d0.1, 0) (d0 :: rest)).1 },
        ?_, rfl, ?_, ?_, ?_, ?_⟩
      · simp only [find_best_model, hs]
      · show (d0 :: rest).length = dirs.length
        rw [← hs]
        exact (sortByName_perm dirs).length_eq
      · intro e he sz hsz
        have hmem : e ∈ d0 :: rest := hs ▸ (sortByName_perm dirs).symm.subset he
        exact h2 e hmem sz hsz
      · intro hpos
        rcases h3 with h3 | ⟨-, l1, e, l2, szv, hleq, hname, hsz, hcnt, hl1⟩
        · rw [h3] at hpos
          exact absurd hpos (lt_irrefl 0)
        · exact ⟨l1, e, l2, szv, hleq, hname, hsz, hcnt, hl1⟩
      · intro hzero
        rcases h3 with h3 | ⟨hlt, -⟩
        · exact ⟨d0, rest, rfl, by rw [h3]⟩
        · have hzero' : (List.foldl bestStep (d0.1, 0) (d0 :: rest)).2 = 0 := hzero
          rw [hzero'] at hlt
          exact absurd hlt (Nat.not_lt_zero _)

/-- Witness for C6 on the spec example {"0": 2 points, "1": 5 points}
(file sizes 96 and 240 bytes): model "1" is selected with 5 points. -/
theorem find_best_model_spec_witness :
    find_best_model [("0", some 96), ("1", some 240)] =
      (some "1", some { num_models := 2, points_3d := 5, model_id := "1" }) ∧
    (∃ nm st, find_best_model [("0", some 96), ("1", some 240)] = (some nm, some st) ∧
      st.model_id = nm ∧ st.num_models = ([("0", some 96), ("1", some 240)] :
        List (String × Option ℕ)).length ∧
      (∀ e ∈ ([("0", some 96), ("1", some 240)] : List (String × Option ℕ)),
        ∀ sz, e.2 = some sz → sz / 48 ≤ st.points_3d) ∧
      (0 < st.points_3d →
        ∃ l1 e l2 sz, sortByName [("0", some 96), ("1", some 240)] = l1 ++ e :: l2 ∧
          e.1 = nm ∧ e.2 = some sz ∧ sz / 48 = st.points_3d ∧
          ∀ e' ∈ l1, ∀ sz', e'.2 = some sz' → sz' / 48 < st.points_3d) ∧
      (st.points_3d = 0 → ∃ d0 rest, sortByName [("0", some 96), ("1", some 240)] = d0 :: rest ∧
        nm = d0.1)) :=
  ⟨rfl, (find_best_model_spec [("0", some 96), ("1", some 240)]).2 (by simp)⟩

/-- Counterexample for C6: candidates "2" and "10" with equal point counts
(both 240 bytes, 5 points).  The claim requires the lowest-numbered
directory "2"; the code sorts names as strings, so "10" is iterated first
and wins the tie. -/
theorem find_best_model_tie_counterexample :
    find_best_model [("2", some 240), ("10", some 240)] =
      (some "10", some { num_models := 2, points_3d := 5, model_id := "10" }) ∧
    (find_best_model [("2", some 240), ("10", some 240)]).1 ≠ some "2" := by
  constructor
  · rfl
  · intro h
    rw [show (find_best_model [("2", some 240), ("10", some 240)]).1 = some "10" from rfl] at h
    simp at h

/- ------------------------------------------------------------------ -/
/- C7: export_measurements                                             -/
/- ------------------------------------------------------------------ -/

theorem padDigitChars_length : ∀ (k v : ℕ), (padDigitChars v k).length = k := by
  intro k
  induction k with
  | zero => intro v; rfl
  | succ k ih => intro v; simp [padDigitChars, ih]

theorem padDigitChars_digits : ∀ (k v : ℕ), ∀ c ∈ padDigitChars v k, c.isDigit = true := by
  intro k
  induction k with
  | zero => intro v c hc; exact absurd hc (List.not_mem_nil c)
  | succ k ih =>
    intro v c hc
    simp only [padDigitChars] at hc
    rcases List.mem_append.mp hc with h | h
    · exact ih _ c h
    · have hcv : c = Char.ofNat (48 + v % 10) := by simpa using h
      subst hcv
      have hv : v % 10 < 10 := Nat.mod_lt _ (by norm_num)
      revert hv
      generalize v % 10 = r
      intro hv
      interval_cases r <;> decide

/-- The fixed-point formatter at 6 places always renders a dot followed by
exactly six decimal digits. -/
theorem fmtFixed_six (x : ℝ) :
    ∃ ip fd, fmtFixed x 6 = ip ++ "." ++ fd ∧ fd.length = 6 ∧
      ∀ c ∈ fd.data, c.isDigit = true := by
  refine ⟨(if (round (x * (10 : ℝ) ^ 6) : ℤ) < 0 then "-" else "") ++
      toString ((round (x * (10 : ℝ) ^ 6)).natAbs / 10 ^ 6),
    String.mk (padDigitChars ((round (x * (10 : ℝ) ^ 6)).natAbs % 10 ^ 6) 6), rfl, ?_, ?_⟩
  · show (padDigitChars ((round (x * (10 : ℝ) ^ 6)).natAbs % 10 ^ 6) 6).length = 6
    exact padDigitChars_length 6 _
  · intro c hc
    exact padDigitChars_digits 6 _ c hc

/-- The literal format string json. -/
def jsonFmt : String := "json"

/-- The literal format string csv. -/
def csvFmt : String := "csv"

/-- C7: export_measurements returns the JSON object with scale_factor and
the measurements list for json; for csv it returns the newline-join of a
header line followed by one row per stored measurement in insertion order,
with distance_m rendered to exactly 6 decimal places; every other format
string raises UnsupportedFormatError. -/
theorem export_measurements_spec (s : MeasurementSystem) :
    export_measurements s jsonFmt = .ok (.json s.scale_factor s.measurements) ∧
    export_measurements s csvFmt =
      .ok (.csv (String.intercalate newlineStr (csvLines s.measurements))) ∧
    (csvLines s.measurements).length = s.measurements.length + 1 ∧
    (csvLines s.measurements).head? = some csvHeader ∧
    (∀ i, (csvLines s.measurements).get? (i + 1) = (s.measurements.get? i).map csvRow) ∧
    (∀ m ∈ s.measurements, ∃ ip fd, fmtFixed m.distance_meters 6 = ip ++ "." ++ fd ∧
      fd.length = 6 ∧ ∀ c ∈ fd.data, c.isDigit = true) ∧
    (∀ format, format ≠ jsonFmt → format ≠ csvFmt →
      export_measurements s format = .error (.unsupportedFormat format)) := by
  refine ⟨?_, ?_, ?_, ?_, ?_, ?_, ?_⟩
  · simp [export_measurements, jsonFmt]
  · simp [export_measurements, csvFmt]
  · simp [csvLines]
  · rfl
  · intro i
    simp [csvLines]
  · intro m _
    exact fmtFixed_six m.distance_meters
  · intro format hj hc
    simp only [jsonFmt] at hj
    simp only [csvFmt] at hc
    simp only [export_measurements, if_neg hj, if_neg hc]

/-- A concrete measurement for the C7 witness. -/
noncomputable def mEx : Measurement :=
  { id := 0, point1_id := 1, point2_id := 2, point1_xyz := (0, 0, 0), point2_xyz := (1, 0, 0),
    distance_meters := 1, distance_cm := 100, distance_mm := 1000, label := "m", scaled := false }

/-- A state holding one stored measurement, for the C7 witness. -/
noncomputable def sExp : MeasurementSystem :=
  { cameras := [], images := [], points3D := [(1, ptO), (2, ptX)],
    scale_factor := 1, measurements := [mEx] }

/-- Witness for C7: a one-measurement state exports csv as header plus one
row, json as the structured object, and rejects the format xml. -/
theorem export_measurements_spec_witness :
    export_measurements sExp jsonFmt = .ok (.json 1 [mEx]) ∧
    export_measurements sExp csvFmt =
      .ok (.csv (String.intercalate newlineStr (csvLines [mEx]))) ∧
    (csvLines [mEx]).length = 2 ∧
    (csvLines [mEx]).head? = some csvHeader ∧
    export_measurements sExp ("xml") = .error (.unsupportedFormat ("xml")) := by
  obtain ⟨h1, h2, h3, h4, -, -, h7⟩ := export_measurements_spec sExp
  exact ⟨h1, h2, h3, h4, h7 ("xml") (by decide) (by decide)⟩

